import Mathlib

/-!
Verification of the Pyology metabolite ledger, reaction engine and pathway
orchestration.  Python floats are modelled as exact rationals (`ℚ`); the one
transcendental computation (the logistic proton leak) is modelled over `ℝ`.
Python exceptions are modelled with `Except`.
-/

namespace Pyology

/-- Errors raised by the store layer (pyology/exceptions.py is not under src/;
the constructors mirror the exception classes the source raises, plus Python's
built-in `ValueError`, `AttributeError` and `KeyError`). -/
inductive StoreError where
  | unknownMetabolite (name : String)
  | quantityError (name : String)
  | insufficientMetabolite (name : String)
  | valueError (msg : String)
  | attributeError (name : String)
  | keyError (name : String)
deriving Repr, DecidableEq

/-- A metabolite (pyology/metabolite.py, class `Metabolite`): a named bounded
quantity.  The constructor lower-cases the name and defaults `min_quantity`
to `0`; the `quantity` attribute setter performs no bounds check. -/
structure Metabolite where
  name : String
  quantity : ℚ
  maxQuantity : ℚ
  minQuantity : ℚ := 0
deriving Repr, DecidableEq

/-- The metabolite store (pyology/metabolite.py, class `Metabolites`): a
dictionary from lower-cased name to `Metabolite`, modelled as an association
list.  The source lower-cases every key on entry (`name.lower()`), making the
store's behaviour depend only on the lower-cased form; the embedding
therefore represents every key by that canonical form and elides the
`.lower()` calls. -/
structure Metabolites where
  data : List (String × Metabolite)
deriving Repr, DecidableEq

/-- First-match association-list lookup (Python dict keys are unique, so the
first match is the entry). -/
def findEntry (k : String) : List (String × Metabolite) → Option Metabolite
  | [] => none
  | (a, b) :: t => if k = a then some b else findEntry k t

@[simp]
theorem findEntry_nil (k : String) : findEntry k [] = none := rfl

@[simp]
theorem findEntry_cons (k a : String) (b : Metabolite) (t : List (String × Metabolite)) :
    findEntry k ((a, b) :: t) = if k = a then some b else findEntry k t := rfl

/-- Dictionary lookup `self.data[name.lower()]` as used throughout the store. -/
def Metabolites.find (ms : Metabolites) (name : String) : Option Metabolite :=
  findEntry name ms.data

/-- Membership test `name.lower() in self.data`. -/
def Metabolites.containsName (ms : Metabolites) (name : String) : Bool :=
  (ms.find name).isSome

/-- Replacement of the entry stored under `name.lower()` (the effect of
`self.data[name.lower()] = metabolite` / of mutating the stored object). -/
def Metabolites.replace (ms : Metabolites) (name : String) (m : Metabolite) : Metabolites :=
  ⟨ms.data.map fun p => if p.1 = name then (name, m) else p⟩

/-- `Metabolites.change_quantity`: fails with `UnknownMetaboliteError` on an
unregistered name, with `QuantityError` when the new quantity falls outside
`[min_quantity, max_quantity]`, and otherwise stores the new quantity. -/
def Metabolites.change_quantity (ms : Metabolites) (name : String) (amount : ℚ) :
    Except StoreError Metabolites :=
  match ms.find name with
  | none => .error (.unknownMetabolite name)
  | some met =>
    if met.quantity + amount < met.minQuantity then .error (.quantityError name)
    else if met.maxQuantity < met.quantity + amount then .error (.quantityError name)
    else .ok (ms.replace name { met with quantity := met.quantity + amount })

/-- `Metabolites.is_available`: `UnknownMetaboliteError` on an unregistered
name, otherwise `quantity >= amount`. -/
def Metabolites.is_available (ms : Metabolites) (name : String) (amount : ℚ) :
    Except StoreError Bool :=
  match ms.find name with
  | none => .error (.unknownMetabolite name)
  | some met => .ok (decide (amount ≤ met.quantity))

/-- `Metabolites.consume` as the source writes it: the first loop body
evaluates `self.is_metabolite_available`, an attribute the `Metabolites`
class does not define (it defines `is_available`), so any non-empty batch
raises `AttributeError` before a single check or decrement happens; an empty
batch performs no iteration and returns with the store untouched. -/
def Metabolites.consume (ms : Metabolites) (amounts : List (String × ℚ)) :
    Except StoreError Metabolites :=
  match amounts with
  | [] => .ok ms
  | _ :: _ => .error (.attributeError "is_metabolite_available")

/-- `Metabolites.produce`: each iteration first raises
`UnknownMetaboliteError` when the current name is unregistered; on a
registered name it evaluates `self.change_metabolite_quantity`, an attribute
the `Metabolites` class does not define (it defines `change_quantity`), so it
raises `AttributeError`.  Either way no quantity is ever changed. -/
def Metabolites.produce (ms : Metabolites) (amounts : List (String × ℚ)) :
    Except StoreError Metabolites :=
  match amounts with
  | [] => .ok ms
  | (name, _) :: _ =>
    if ms.containsName name then .error (.attributeError "change_metabolite_quantity")
    else .error (.unknownMetabolite name)

/-- `Metabolites.__getitem__`: when the lower-cased key is absent the store
silently `_register`s it with default values (quantity `0`, max `100`,
the `Metabolite` constructor defaulting `min_quantity` to `0`), then returns
the (possibly fresh) entry.  The returned pair is (entry, updated store). -/
def Metabolites.getItem (ms : Metabolites) (key : String) : Metabolite × Metabolites :=
  match ms.find key with
  | some met => (met, ms)
  | none =>
    let met : Metabolite := { name := key, quantity := 0, maxQuantity := 100 }
    (met, ⟨ms.data ++ [(key, met)]⟩)

/-- Bounds invariant of the store: every registered metabolite's quantity lies
in `[min_quantity, max_quantity]`. -/
def Metabolites.WellBounded (ms : Metabolites) : Prop :=
  ∀ p ∈ ms.data, p.2.minQuantity ≤ p.2.quantity ∧ p.2.quantity ≤ p.2.maxQuantity

theorem findEntry_replaceEntry_self (l : List (String × Metabolite)) (k : String)
    (m : Metabolite) (h : (findEntry k l).isSome) :
    findEntry k (l.map fun p => if p.1 = k then (k, m) else p) = some m := by
  induction l with
  | nil => simp at h
  | cons hd tl ih =>
    rcases hd with ⟨a, b⟩
    by_cases hk : a = k
    · subst hk
      simp
    · have hk' : ¬ k = a := fun e => hk e.symm
      simp only [List.map_cons, if_neg hk, findEntry_cons, if_neg hk'] at h ⊢
      exact ih h

theorem findEntry_replaceEntry_other (l : List (String × Metabolite)) (k k' : String)
    (m : Metabolite) (hne : k' ≠ k) :
    findEntry k' (l.map fun p => if p.1 = k then (k, m) else p) = findEntry k' l := by
  induction l with
  | nil => simp
  | cons hd tl ih =>
    rcases hd with ⟨a, b⟩
    by_cases hk : a = k
    · subst hk
      simp [if_neg hne, ih]
    · by_cases h2 : k' = a
      · subst h2
        simp [if_neg hk]
      · simp [if_neg hk, if_neg h2, ih]

theorem Metabolites.change_quantity_match (ms : Metabolites) (name : String) (amount : ℚ)
    (met : Metabolite) (hf : ms.find name = some met) :
    ms.change_quantity name amount =
      if met.quantity + amount < met.minQuantity then .error (.quantityError name)
      else if met.maxQuantity < met.quantity + amount then .error (.quantityError name)
      else .ok (ms.replace name { met with quantity := met.quantity + amount }) := by
  unfold Metabolites.change_quantity
  rw [hf]

theorem Metabolites.find_replace_self (ms : Metabolites) (name : String) (m : Metabolite)
    (h : (ms.find name).isSome) : (ms.replace name m).find name = some m :=
  findEntry_replaceEntry_self ms.data name m h

theorem Metabolites.find_replace_other (ms : Metabolites) (name other : String) (m : Metabolite)
    (hne : other ≠ name) :
    (ms.replace name m).find other = ms.find other :=
  findEntry_replaceEntry_other ms.data name other m hne

/-- Characterization of a successful `change_quantity`: the named metabolite
was present, the new quantity is in bounds, and the result is the store with
just that entry's quantity updated. -/
theorem Metabolites.change_quantity_ok {ms ms' : Metabolites} {name : String} {amount : ℚ}
    (h : ms.change_quantity name amount = .ok ms') :
    ∃ met, ms.find name = some met ∧
      met.minQuantity ≤ met.quantity + amount ∧ met.quantity + amount ≤ met.maxQuantity ∧
      ms' = ms.replace name { met with quantity := met.quantity + amount } := by
  cases hf : ms.find name with
  | none =>
    unfold Metabolites.change_quantity at h
    rw [hf] at h
    exact absurd h (by simp)
  | some met =>
    rw [Metabolites.change_quantity_match ms name amount met hf] at h
    by_cases h1 : met.quantity + amount < met.minQuantity
    · rw [if_pos h1] at h; exact absurd h (by simp)
    · rw [if_neg h1] at h
      by_cases h2 : met.maxQuantity < met.quantity + amount
      · rw [if_pos h2] at h; exact absurd h (by simp)
      · rw [if_neg h2] at h
        refine ⟨met, rfl, le_of_not_lt h1, le_of_not_lt h2, ?_⟩
        cases h
        rfl

theorem Metabolites.change_quantity_ok_find_self {ms ms' : Metabolites} {name : String}
    {amount : ℚ} (h : ms.change_quantity name amount = .ok ms') :
    ∃ met, ms.find name = some met ∧
      ms'.find name = some { met with quantity := met.quantity + amount } := by
  obtain ⟨met, hf, _, _, rfl⟩ := Metabolites.change_quantity_ok h
  exact ⟨met, hf, Metabolites.find_replace_self ms name _ (by simp [hf])⟩

theorem Metabolites.change_quantity_ok_find_other {ms ms' : Metabolites} {name other : String}
    {amount : ℚ} (h : ms.change_quantity name amount = .ok ms')
    (hne : other ≠ name) :
    ms'.find other = ms.find other := by
  obtain ⟨met, hf, _, _, rfl⟩ := Metabolites.change_quantity_ok h
  exact Metabolites.find_replace_other ms name other _ hne

/-- Modelled from the spec: the pyology `Organelle` class (organelle.py) is
not under src/ — only its callers are.  Per spec §4.1/§6 it owns a
`Metabolites` store and exposes the store operations; `get_metabolite_quantity`
returns the registered quantity or fails with the unknown-metabolite error, and
`change_metabolite_quantity` is the store's bounded `change_quantity`. -/
structure Organelle where
  metabolites : Metabolites
deriving Repr, DecidableEq

def Organelle.get_metabolite_quantity (o : Organelle) (name : String) : Except StoreError ℚ :=
  match o.metabolites.find name with
  | none => .error (.unknownMetabolite name)
  | some met => .ok met.quantity

def Organelle.change_metabolite_quantity (o : Organelle) (name : String) (amount : ℚ) :
    Except StoreError Organelle :=
  match o.metabolites.change_quantity name amount with
  | .error e => .error e
  | .ok ms => .ok ⟨ms⟩

/-- The registered quantity of a metabolite, if present. -/
def Organelle.qty (o : Organelle) (name : String) : Option ℚ :=
  (o.metabolites.find name).map Metabolite.quantity

/-- A sequence of `organelle.change_metabolite_quantity(name, coeff * scale)`
calls, one per stoichiometric entry — the consume loop of `Reaction.execute`
runs it with `scale = -actual_rate`, the produce loop with
`scale = actual_rate`. -/
def Organelle.changeAll (o : Organelle) (entries : List (String × ℚ)) (scale : ℚ) :
    Except StoreError Organelle :=
  match entries with
  | [] => .ok o
  | (name, coeff) :: rest =>
    match o.change_metabolite_quantity name (coeff * scale) with
    | .error e => .error e
    | .ok o' => o'.changeAll rest scale

theorem Organelle.change_metabolite_quantity_ok {o o' : Organelle} {name : String} {amount : ℚ}
    (h : o.change_metabolite_quantity name amount = .ok o') :
    o.metabolites.change_quantity name amount = .ok o'.metabolites := by
  unfold Organelle.change_metabolite_quantity at h
  cases hc : o.metabolites.change_quantity name amount with
  | error e => rw [hc] at h; exact absurd h (by simp)
  | ok ms => rw [hc] at h; cases h; rfl

theorem Organelle.change_qty_self {o o' : Organelle} {name : String} {amount : ℚ}
    (h : o.change_metabolite_quantity name amount = .ok o') :
    ∃ q, o.qty name = some q ∧ o'.qty name = some (q + amount) := by
  obtain ⟨met, hf, hfind⟩ :=
    Metabolites.change_quantity_ok_find_self (Organelle.change_metabolite_quantity_ok h)
  exact ⟨met.quantity, by simp [Organelle.qty, hf], by simp [Organelle.qty, hfind]⟩

theorem Organelle.change_qty_other {o o' : Organelle} {name other : String} {amount : ℚ}
    (h : o.change_metabolite_quantity name amount = .ok o')
    (hne : other ≠ name) :
    o'.qty other = o.qty other := by
  have := Metabolites.change_quantity_ok_find_other
    (Organelle.change_metabolite_quantity_ok h) hne
  simp [Organelle.qty, this]

theorem Organelle.changeAll_qty_other {l : List (String × ℚ)} {o o' : Organelle} {scale : ℚ}
    (h : o.changeAll l scale = .ok o') (other : String)
    (hother : ∀ p ∈ l, other ≠ p.1) :
    o'.qty other = o.qty other := by
  induction l generalizing o with
  | nil =>
    unfold Organelle.changeAll at h
    cases h
    rfl
  | cons hd tl ih =>
    rcases hd with ⟨n, c⟩
    unfold Organelle.changeAll at h
    cases hc : o.change_metabolite_quantity n (c * scale) with
    | error e => rw [hc] at h; exact absurd h (by simp)
    | ok o1 =>
      rw [hc] at h
      have h1 : o1.qty other = o.qty other :=
        Organelle.change_qty_other hc (hother (n, c) (by simp))
      have h2 : o'.qty other = o1.qty other :=
        ih h fun p hp => hother p (List.mem_cons_of_mem _ hp)
      rw [h2, h1]

theorem Organelle.changeAll_qty_mem {l : List (String × ℚ)} {o o' : Organelle} {scale : ℚ}
    (h : o.changeAll l scale = .ok o')
    (hnd : (l.map Prod.fst).Nodup) :
    ∀ p ∈ l, ∃ q, o.qty p.1 = some q ∧ o'.qty p.1 = some (q + p.2 * scale) := by
  induction l generalizing o with
  | nil => intro p hp; exact absurd hp (by simp)
  | cons hd tl ih =>
    rcases hd with ⟨n, c⟩
    unfold Organelle.changeAll at h
    cases hc : o.change_metabolite_quantity n (c * scale) with
    | error e => rw [hc] at h; exact absurd h (by simp)
    | ok o1 =>
      rw [hc] at h
      rw [List.map_cons, List.nodup_cons] at hnd
      intro p hp
      rcases List.mem_cons.mp hp with rfl | hp'
      · obtain ⟨q, hq, hq'⟩ := Organelle.change_qty_self hc
        refine ⟨q, hq, ?_⟩
        have hother : ∀ r ∈ tl, n ≠ r.1 := by
          intro r hr hcon
          exact hnd.1 (by rw [hcon]; exact List.mem_map.mpr ⟨r, hr, rfl⟩)
        have ho : o'.qty n = o1.qty n := Organelle.changeAll_qty_other h n hother
        rw [ho]
        exact hq'
      · obtain ⟨q, hq, hq'⟩ := ih h hnd.2 p hp'
        have hne : p.1 ≠ n := by
          intro hcon
          exact hnd.1 (by rw [← hcon]; exact List.mem_map.mpr ⟨p, hp', rfl⟩)
        refine ⟨q, ?_, hq'⟩
        rw [← hq]
        exact (Organelle.change_qty_other hc hne).symm

theorem foldl_min_le_init (l : List ℚ) (a : ℚ) : l.foldl min a ≤ a := by
  induction l generalizing a with
  | nil => simp
  | cons x tl ih => exact le_trans (ih (min a x)) (min_le_left a x)

theorem foldl_min_le_mem (l : List ℚ) (a : ℚ) : ∀ x ∈ l, l.foldl min a ≤ x := by
  induction l generalizing a with
  | nil => intro x hx; exact absurd hx (by simp)
  | cons y tl ih =>
    intro x hx
    rcases List.mem_cons.mp hx with rfl | hx'
    · exact le_trans (foldl_min_le_init tl (min a x)) (min_le_right a x)
    · exact ih (min a y) x hx'

theorem foldl_min_eq_init_or_mem (l : List ℚ) (a : ℚ) :
    l.foldl min a = a ∨ l.foldl min a ∈ l := by
  induction l generalizing a with
  | nil => left; rfl
  | cons x tl ih =>
    rcases ih (min a x) with h | h
    · rcases min_cases a x with ⟨he, _⟩ | ⟨he, _⟩
      · left; rw [List.foldl_cons, h, he]
      · right; rw [List.foldl_cons, h, he]; exact List.mem_cons_self x tl
    · right; exact List.mem_cons_of_mem x h

/-- A reaction (pyology/reaction.py, class `Reaction`): stoichiometric
consume/produce maps.  The one-argument `Enzyme.calculate_rate` the `execute`
method calls is not under src/ (src/pyology/enzymes.py holds a two-argument
variant without the `k_m` map); its result enters `execute` as the abstract
nominal-rate argument, and `kmNames` stands for the keys of the enzyme's
`k_m` map used to build the concentration snapshot. -/
structure Reaction where
  name : String
  kmNames : List String
  consume : List (String × ℚ)
  produce : List (String × ℚ)
deriving Repr, DecidableEq

/-- The limiting-factor resolution of `Reaction.execute`: the minimum of the
candidate factors, namely `reaction_rate * time_step` together with
`quantity(m) / coeff` for every consumed metabolite with positive
coefficient. -/
def Reaction.actualRate (r : Reaction) (rate : ℚ) (o : Organelle) (time_step : ℚ) : ℚ :=
  (r.consume.filterMap fun p =>
    if 0 < p.2 then some ((o.qty p.1).getD 0 / p.2) else none).foldl min (rate * time_step)

/-- `Reaction.execute(organelle, time_step)`: raises `ValueError` on a
negative time step; builds the metabolite snapshot over the consumed species
and the enzyme's `k_m` keys (failing with the unknown-metabolite error when a
referenced name is unregistered); resolves the actual rate as the minimum of
the candidate limiting factors; then runs the consume loop
(`change_metabolite_quantity(met, -coeff * actual_rate)`) and the produce loop
(`+coeff * actual_rate`) and returns the actual rate. -/
def Reaction.execute (r : Reaction) (rate : ℚ) (o : Organelle) (time_step : ℚ) :
    Except StoreError (ℚ × Organelle) :=
  if time_step < 0 then .error (.valueError "Time step cannot be negative")
  else
    match (r.consume.map Prod.fst ++ r.kmNames).filter (fun n => (o.qty n).isNone) with
    | missing :: _ => .error (.unknownMetabolite missing)
    | [] =>
      match o.changeAll r.consume (-(r.actualRate rate o time_step)) with
      | .error e => .error e
      | .ok o1 =>
        match o1.changeAll r.produce (r.actualRate rate o time_step) with
        | .error e => .error e
        | .ok o2 => .ok (r.actualRate rate o time_step, o2)

/-- An enzyme (src/pyology/enzymes.py, class `Enzyme`): Michaelis-Menten
parameters with inhibitor/activator constant maps. -/
structure Enzyme where
  name : String
  vmax : ℚ
  km : ℚ
  inhibitors : List (String × ℚ)
  activators : List (String × ℚ)
deriving Repr, DecidableEq

/-- `metabolite_levels.get(name, 0)`: the level of a species, defaulting to
`0` when the species is absent from the snapshot. -/
def levelOf (levels : List (String × ℚ)) (name : String) : ℚ :=
  match levels with
  | [] => 0
  | (a, v) :: t => if name = a then v else levelOf t name

/-- `Enzyme.calculate_rate(substrate_concentration, metabolite_levels)`:
`km_effective` starts at `km` and is multiplied by `1 + [inhibitor]/ki` for
each configured inhibitor; `vmax_effective` starts at `vmax` and is multiplied
by `1 + [activator]/ka` for each configured activator; the result is
`vmax_effective * S / (km_effective + S)`.  The function reads the enzyme and
the level snapshot and writes nothing. -/
def Enzyme.calculate_rate (e : Enzyme) (substrate_concentration : ℚ)
    (metabolite_levels : List (String × ℚ)) : ℚ :=
  let km_effective := e.inhibitors.foldl
    (fun acc p => acc * (1 + levelOf metabolite_levels p.1 / p.2)) e.km
  let vmax_effective := e.activators.foldl
    (fun acc p => acc * (1 + levelOf metabolite_levels p.1 / p.2)) e.vmax
  vmax_effective * substrate_concentration / (km_effective + substrate_concentration)

theorem foldl_mul_eq_mul_prod (f : String × ℚ → ℚ) (l : List (String × ℚ)) (a : ℚ) :
    l.foldl (fun acc p => acc * f p) a = a * (l.map f).prod := by
  induction l generalizing a with
  | nil => simp
  | cons x tl ih =>
    rw [List.foldl_cons, ih, List.map_cons, List.prod_cons, mul_assoc]

/-- The adenine pools glycolysis touches: the `quantity` fields of the ATP,
ADP and AMP metabolites of the organelle's store. -/
structure AdenineState where
  atp : ℚ
  adp : ℚ
  amp : ℚ
deriving Repr, DecidableEq

def AdenineState.total (s : AdenineState) : ℚ := s.atp + s.adp + s.amp

/-- The conservation tolerance `1e-6` of glycolysis.py. -/
def adenineTolerance : ℚ := 1 / 1000000

namespace Glycolysis

/-- Lines 88–104 of src/pyology/glycolysis.py: the post-pass adenine balance
check of `Glycolysis.perform`.  `initialTotal` and `initialAtp` are the
ATP+ADP+AMP total and the ATP level read before the phases; `s` is the state
of the three pools after the investment phase, the yield phase and NAD+
regeneration.  When the drift exceeds `1e-6` the code subtracts
`atp_adjustment = min(excess, final_atp - initial_atp)` from ATP and the rest
of the excess from ADP, writing both through the plain `quantity` attribute
setter (no bounds check, no possible `QuantityError`). -/
def adenineBalanceAdjust (initialTotal initialAtp : ℚ) (s : AdenineState) : AdenineState :=
  if adenineTolerance < |s.total - initialTotal| then
    let excess := s.total - initialTotal
    let atp_adjustment := min excess (s.atp - initialAtp)
    let adp_adjustment := excess - atp_adjustment
    { atp := s.atp - atp_adjustment
      adp := if 0 < adp_adjustment then s.adp - adp_adjustment else s.adp + |adp_adjustment|
      amp := s.amp }
  else s

end Glycolysis

namespace KrebsCycle

/-- Modelled from the spec: `Reaction.transform`, the per-step entry point
`KrebsCycle.cycle` calls, is not under src/ (src/pyology/reaction.py defines
only `execute`).  Per spec §4.4 each step is a reaction execution that mutates
the organelle and may raise a `ReactionError`; each step therefore enters
`cycle` as an arbitrary fallible state update, and the claimed CO2 count is
independent of what the steps compute. -/
def cycle {σ ε : Type} (citrate_synthase aconitase isocitrate_dehydrogenase
    alpha_ketoglutarate_dehydrogenase succinyl_coa_synthetase succinate_dehydrogenase
    fumarase malate_dehydrogenase : σ → Except ε σ) (organelle : σ) : Except ε (ℤ × σ) := do
  let co2_produced : ℤ := 0
  let o1 ← citrate_synthase organelle
  let o2 ← aconitase o1
  let o3 ← isocitrate_dehydrogenase o2
  let co2_produced := co2_produced + 1
  let o4 ← alpha_ketoglutarate_dehydrogenase o3
  let co2_produced := co2_produced + 1
  let o5 ← succinyl_coa_synthetase o4
  let o6 ← succinate_dehydrogenase o5
  let o7 ← fumarase o6
  let o8 ← malate_dehydrogenase o7
  pure (co2_produced, o8)

end KrebsCycle

end Pyology

namespace CellModeling

/-- The cell_modeling `Metabolite` dataclass (mitochondrion.py): name,
quantity and max quantity only — no minimum. -/
structure Metabolite where
  name : String
  quantity : ℚ
  maxQuantity : ℚ
deriving Repr, DecidableEq

/-- The cell_modeling `Organelle` base class: a plain dict of metabolites
(no key lowering). -/
structure Organelle where
  metabolites : List (String × Metabolite)
deriving Repr, DecidableEq

/-- First-match lookup in a plain metabolite dict. -/
def findMet (k : String) : List (String × Metabolite) → Option Metabolite
  | [] => none
  | (a, b) :: t => if k = a then some b else findMet k t

@[simp]
theorem findMet_nil (k : String) : findMet k [] = none := rfl

@[simp]
theorem findMet_cons (k a : String) (b : Metabolite) (t : List (String × Metabolite)) :
    findMet k ((a, b) :: t) = if k = a then some b else findMet k t := rfl

/-- Dict lookup `self.metabolites[name]`. -/
def Organelle.find (o : Organelle) (name : String) : Option Metabolite :=
  findMet name o.metabolites

/-- Replacement of the entry stored under `name`. -/
def Organelle.replace (o : Organelle) (name : String) (m : Metabolite) : Organelle :=
  ⟨o.metabolites.map fun p => if p.1 = name then (name, m) else p⟩

/-- `Organelle.change_metabolite_quantity` (mitochondrion.py lines 20–27):
clamps the new quantity into `[0, max_quantity]`; an unknown name only logs a
warning and changes nothing. -/
def Organelle.change_metabolite_quantity (o : Organelle) (name : String) (amount : ℚ) :
    Organelle :=
  match o.find name with
  | some met => o.replace name { met with quantity := max 0 (min (met.quantity + amount) met.maxQuantity) }
  | none => o

/-- `Organelle.is_metabolite_available` (mitochondrion.py lines 29–34):
`quantity >= amount` for a registered name, `False` (after a warning) for an
unknown one. -/
def Organelle.is_metabolite_available (o : Organelle) (name : String) (amount : ℚ) : Bool :=
  match o.find name with
  | some met => decide (amount ≤ met.quantity)
  | none => false

/-- `Organelle.consume_metabolites` (mitochondrion.py lines 36–43): walks the
batch in order; each sufficient metabolite is decremented immediately; the
first insufficient one stops the loop and returns `False`, leaving every
earlier decrement in place. -/
def Organelle.consume_metabolites (o : Organelle) : List (String × ℚ) → Bool × Organelle
  | [] => (true, o)
  | (name, amount) :: rest =>
    if o.is_metabolite_available name amount then
      (o.change_metabolite_quantity name (-amount)).consume_metabolites rest
    else (false, o)

/-- `Organelle.produce_metabolites` (mitochondrion.py lines 45–47). -/
def Organelle.produce_metabolites (o : Organelle) : List (String × ℚ) → Organelle
  | [] => o
  | (name, amount) :: rest =>
    (o.change_metabolite_quantity name amount).produce_metabolites rest

/-- Python runtime errors the Mitochondrion model can surface. -/
inductive MitoError where
  | attributeError (name : String)
  | keyError (name : String)
deriving Repr, DecidableEq

/-- Electron-transport constants (cell_modeling/pyology/constants.py). -/
def PROTONS_PER_NADH : ℚ := 4

def PROTONS_PER_FADH2 : ℚ := 2

def PROTONS_PER_ATP : ℚ := 4

/-- Python's `int(x)` for a float: truncation toward zero. -/
def pyInt (q : ℚ) : ℤ := if 0 ≤ q then ⌊q⌋ else ⌈q⌉

/-- Python's `x // 2` for floats: the floor of the quotient. -/
def pyFloorDivTwo (q : ℚ) : ℚ := (⌊q / 2⌋ : ℤ)

/-- The `Mitochondrion` state: the twelve metabolites its constructor
registers into `self.metabolites`, plus the proton gradient.  The scalar
tunables (leak parameters and the like) never change and play no role in the
dict-backed operations, so they are kept as the global constants below. -/
structure Mitochondrion where
  nadh : Metabolite
  fadh2 : Metabolite
  atp : Metabolite
  adp : Metabolite
  oxygen : Metabolite
  ubiquinone : Metabolite
  ubiquinol : Metabolite
  cytochrome_c_oxidized : Metabolite
  cytochrome_c_reduced : Metabolite
  co2 : Metabolite
  calcium : Metabolite
  oxaloacetate : Metabolite
  proton_gradient : ℚ
deriving Repr, DecidableEq

/-- The keys the `Mitochondrion` constructor registers via `add_metabolite`
(mitochondrion.py lines 250–261): these live in the `self.metabolites` dict,
never as instance attributes. -/
def mitoMetaboliteNames : List String :=
  ["nadh", "fadh2", "atp", "adp", "oxygen", "ubiquinone", "ubiquinol",
   "cytochrome_c_oxidized", "cytochrome_c_reduced", "co2", "calcium", "oxaloacetate"]

/-- The attribute names `hasattr(self, ...)` can find on a `Mitochondrion`:
the instance attributes set in `__init__` (lines 248–277, plus the two set by
`Organelle.__init__`) and the methods of `Mitochondrion` and its `Organelle`
base class.  Dunder attributes inherited from `object` are omitted: no
metabolite name starts with an underscore, so they cannot collide. -/
def mitoAttrNames : List String :=
  ["logger", "metabolites", "proton_gradient", "atp_per_nadh", "atp_per_fadh2",
   "atp_per_substrate_phosphorylation", "oxygen_per_nadh", "oxygen_per_fadh2",
   "calcium_threshold", "calcium_boost_factor", "max_proton_gradient",
   "leak_rate", "leak_steepness", "leak_midpoint", "krebs_cycle",
   "add_metabolite", "change_metabolite_quantity", "is_metabolite_available",
   "consume_metabolites", "produce_metabolites", "krebs_cycle_process",
   "pyruvate_to_acetyl_coa", "cellular_respiration", "calculate_proton_leak",
   "update_proton_gradient", "complex_I", "complex_II", "complex_III",
   "complex_IV", "atp_synthase", "replenish_ubiquinone", "replenish_cytochrome_c",
   "oxidative_phosphorylation", "buffer_calcium", "release_calcium", "reset",
   "transfer_cytoplasmic_nadh"]

/-- Dict lookup `self.metabolites[name]` on the twelve registered keys. -/
def Mitochondrion.getMet (m : Mitochondrion) (name : String) : Option Metabolite :=
  if name = "nadh" then some m.nadh
  else if name = "fadh2" then some m.fadh2
  else if name = "atp" then some m.atp
  else if name = "adp" then some m.adp
  else if name = "oxygen" then some m.oxygen
  else if name = "ubiquinone" then some m.ubiquinone
  else if name = "ubiquinol" then some m.ubiquinol
  else if name = "cytochrome_c_oxidized" then some m.cytochrome_c_oxidized
  else if name = "cytochrome_c_reduced" then some m.cytochrome_c_reduced
  else if name = "co2" then some m.co2
  else if name = "calcium" then some m.calcium
  else if name = "oxaloacetate" then some m.oxaloacetate
  else none

/-- Dict store `self.metabolites[name] = met` on the twelve registered keys. -/
def Mitochondrion.setMet (m : Mitochondrion) (name : String) (met : Metabolite) :
    Mitochondrion :=
  if name = "nadh" then { m with nadh := met }
  else if name = "fadh2" then { m with fadh2 := met }
  else if name = "atp" then { m with atp := met }
  else if name = "adp" then { m with adp := met }
  else if name = "oxygen" then { m with oxygen := met }
  else if name = "ubiquinone" then { m with ubiquinone := met }
  else if name = "ubiquinol" then { m with ubiquinol := met }
  else if name = "cytochrome_c_oxidized" then { m with cytochrome_c_oxidized := met }
  else if name = "cytochrome_c_reduced" then { m with cytochrome_c_reduced := met }
  else if name = "co2" then { m with co2 := met }
  else if name = "calcium" then { m with calcium := met }
  else if name = "oxaloacetate" then { m with oxaloacetate := met }
  else m

/-- `Mitochondrion.is_metabolite_available` (lines 475–481): the override
tests `hasattr(self, metabolite)` — the instance's attributes, not the
`self.metabolites` dict.  When the attribute does not exist it warns and
returns `False`.  When it does exist it evaluates
`getattr(self, metabolite).quantity`, and since no attribute of a constructed
`Mitochondrion` is a `Metabolite` (they are floats, a dict, a logger, a
`KrebsCycle` and bound methods), that access raises `AttributeError`. -/
def Mitochondrion.is_metabolite_available (m : Mitochondrion) (name : String)
    (amount : ℚ) : Except MitoError Bool :=
  if name ∈ mitoAttrNames then .error (.attributeError name)
  else .ok false

/-- `Mitochondrion.change_metabolite_quantity` (lines 279–287): clamps the new
quantity into `[0, max_quantity]`; unknown names only log a warning. -/
def Mitochondrion.change_metabolite_quantity (m : Mitochondrion) (name : String)
    (amount : ℚ) : Mitochondrion :=
  match m.getMet name with
  | some met =>
    m.setMet name { met with quantity := max 0 (min (met.quantity + amount) met.maxQuantity) }
  | none => m

/-- `Mitochondrion.consume_metabolites` (lines 289–297): per-item check via
`is_metabolite_available` followed by a direct unclamped `-=` on the dict
entry; the first insufficient item returns `False` immediately. -/
def Mitochondrion.consume_metabolites (m : Mitochondrion) :
    List (String × ℚ) → Except MitoError (Bool × Mitochondrion)
  | [] => .ok (true, m)
  | (name, amount) :: rest => do
    let available ← m.is_metabolite_available name amount
    if available then
      match m.getMet name with
      | some met =>
        (m.setMet name { met with quantity := met.quantity - amount }).consume_metabolites rest
      | none => .error (.keyError name)
    else .ok (false, m)

/-- `Mitochondrion.produce_metabolites` (lines 299–302): direct unclamped
`+=` on each dict entry; a missing key raises `KeyError`. -/
def Mitochondrion.produce_metabolites (m : Mitochondrion) :
    List (String × ℚ) → Except MitoError Mitochondrion
  | [] => .ok m
  | (name, amount) :: rest =>
    match m.getMet name with
    | some met =>
      (m.setMet name { met with quantity := met.quantity + amount }).produce_metabolites rest
    | none => .error (.keyError name)

/-- `Mitochondrion.complex_I` (lines 392–409): guarded by two
`is_metabolite_available` calls; on success consumes NADH and ubiquinone at
`min` of the two pools, produces ubiquinol and pumps
`PROTONS_PER_NADH * rate` protons; otherwise warns and returns `0`. -/
def Mitochondrion.complex_I (m : Mitochondrion) : Except MitoError (ℚ × Mitochondrion) := do
  let a ← m.is_metabolite_available "nadh" 1
  if a then
    let b ← m.is_metabolite_available "ubiquinone" 1
    if b then
      let reaction_rate := min m.nadh.quantity m.ubiquinone.quantity
      let (consumed, m1) ←
        m.consume_metabolites [("nadh", reaction_rate), ("ubiquinone", reaction_rate)]
      if consumed then
        let m2 ← m1.produce_metabolites [("ubiquinol", reaction_rate)]
        pure (reaction_rate,
          { m2 with proton_gradient := m2.proton_gradient + PROTONS_PER_NADH * reaction_rate })
      else pure (0, m1)
    else pure (0, m)
  else pure (0, m)

/-- `Mitochondrion.complex_II` (lines 411–425): FADH2 and ubiquinone, no
proton pumping. -/
def Mitochondrion.complex_II (m : Mitochondrion) : Except MitoError (ℚ × Mitochondrion) := do
  let a ← m.is_metabolite_available "fadh2" 1
  if a then
    let b ← m.is_metabolite_available "ubiquinone" 1
    if b then
      let reaction_rate := min m.fadh2.quantity m.ubiquinone.quantity
      let (consumed, m1) ←
        m.consume_metabolites [("fadh2", reaction_rate), ("ubiquinone", reaction_rate)]
      if consumed then
        let m2 ← m1.produce_metabolites [("ubiquinol", reaction_rate)]
        pure (reaction_rate, m2)
      else pure (0, m1)
    else pure (0, m)
  else pure (0, m)

/-- `Mitochondrion.complex_III` (lines 427–448): ubiquinol and oxidized
cytochrome c, pumps `PROTONS_PER_FADH2 * rate` protons. -/
def Mitochondrion.complex_III (m : Mitochondrion) : Except MitoError (ℚ × Mitochondrion) := do
  let a ← m.is_metabolite_available "ubiquinol" 1
  if a then
    let b ← m.is_metabolite_available "cytochrome_c_oxidized" 1
    if b then
      let reaction_rate := min m.ubiquinol.quantity m.cytochrome_c_oxidized.quantity
      let (consumed, m1) ← m.consume_metabolites
        [("ubiquinol", reaction_rate), ("cytochrome_c_oxidized", reaction_rate)]
      if consumed then
        let m2 ← m1.produce_metabolites
          [("ubiquinone", reaction_rate), ("cytochrome_c_reduced", reaction_rate)]
        pure (reaction_rate,
          { m2 with proton_gradient := m2.proton_gradient + PROTONS_PER_FADH2 * reaction_rate })
      else pure (0, m1)
    else pure (0, m)
  else pure (0, m)

/-- `Mitochondrion.complex_IV` (lines 450–473): reduced cytochrome c and
oxygen at 2:1 stoichiometry, pumps `PROTONS_PER_FADH2 * rate` protons. -/
def Mitochondrion.complex_IV (m : Mitochondrion) : Except MitoError (ℚ × Mitochondrion) := do
  let a ← m.is_metabolite_available "cytochrome_c_reduced" 1
  if a then
    let b ← m.is_metabolite_available "oxygen" (1 / 2)
    if b then
      let reaction_rate := min m.cytochrome_c_reduced.quantity (m.oxygen.quantity * 2)
      let oxygen_consumed := pyFloorDivTwo reaction_rate
      let (consumed, m1) ← m.consume_metabolites
        [("cytochrome_c_reduced", reaction_rate), ("oxygen", oxygen_consumed)]
      if consumed then
        let m2 ← m1.produce_metabolites [("cytochrome_c_oxidized", reaction_rate)]
        pure (reaction_rate,
          { m2 with proton_gradient := m2.proton_gradient + PROTONS_PER_FADH2 * reaction_rate })
      else pure (0, m1)
    else pure (0, m)
  else pure (0, m)

/-- `Mitochondrion.atp_synthase` (lines 483–492): `int(gradient / 4)` possible
ATP, bounded by the ADP pool; ATP and ADP move through the clamped
`change_metabolite_quantity`; the consumed protons are subtracted from the
gradient (`-=`, not `%=`). -/
def Mitochondrion.atp_synthase (m : Mitochondrion) : ℚ × Mitochondrion :=
  let possible_atp : ℚ := (pyInt (m.proton_gradient / PROTONS_PER_ATP) : ℤ)
  let atp_produced := min possible_atp m.adp.quantity
  let m1 := m.change_metabolite_quantity "atp" atp_produced
  let m2 := m1.change_metabolite_quantity "adp" (-atp_produced)
  (atp_produced,
    { m2 with proton_gradient := m2.proton_gradient - atp_produced * PROTONS_PER_ATP })

/-- The `Mitochondrion` constructor state (lines 248–277). -/
def mitoInit : Mitochondrion where
  nadh := ⟨"nadh", 0, 1000⟩
  fadh2 := ⟨"fadh2", 0, 1000⟩
  atp := ⟨"atp", 0, 1000⟩
  adp := ⟨"adp", 100, 1000⟩
  oxygen := ⟨"oxygen", 1000, 1000⟩
  ubiquinone := ⟨"ubiquinone", 100, 1000⟩
  ubiquinol := ⟨"ubiquinol", 0, 1000⟩
  cytochrome_c_oxidized := ⟨"cytochrome_c_oxidized", 100, 1000⟩
  cytochrome_c_reduced := ⟨"cytochrome_c_reduced", 0, 1000⟩
  co2 := ⟨"co2", 0, 1000000⟩
  calcium := ⟨"calcium", 0, 1000⟩
  oxaloacetate := ⟨"oxaloacetate", 0, 1000⟩
  proton_gradient := 0

/-- The leak parameters of the logistic proton leak (constants.py fixes
`LEAK_RATE = 0.1`, `LEAK_STEEPNESS = 0.1`, `LEAK_MIDPOINT = 150`,
`MAX_PROTON_GRADIENT = 200`); kept abstract so monotonicity is settled for
every positive choice. -/
structure LeakParams where
  leak_rate : ℝ
  leak_steepness : ℝ
  leak_midpoint : ℝ
  max_proton_gradient : ℝ

/-- `Mitochondrion.calculate_proton_leak` (lines 374–383):
`leak_rate / (1 + exp(-leak_steepness * (gradient - leak_midpoint)))`.
(The `relative_gradient` local of the source is computed and never used.) -/
noncomputable def calculate_proton_leak (p : LeakParams) (proton_gradient : ℝ) : ℝ :=
  p.leak_rate / (1 + Real.exp (-p.leak_steepness * (proton_gradient - p.leak_midpoint)))

/-- `Mitochondrion.update_proton_gradient` (lines 385–390): add the pumped
protons, subtract the logistic leak, and floor the result at zero. -/
noncomputable def update_proton_gradient (p : LeakParams) (proton_gradient
    protons_pumped : ℝ) : ℝ :=
  max 0 (proton_gradient + protons_pumped -
    calculate_proton_leak p (proton_gradient + protons_pumped))

end CellModeling

namespace Pyology

theorem findEntry_append_of_none (k : String) (l1 l2 : List (String × Metabolite))
    (h : findEntry k l1 = none) : findEntry k (l1 ++ l2) = findEntry k l2 := by
  induction l1 with
  | nil => simp
  | cons hd tl ih =>
    rcases hd with ⟨a, b⟩
    by_cases hk : k = a
    · rw [findEntry_cons, if_pos hk] at h
      exact absurd h (by simp)
    · rw [findEntry_cons, if_neg hk] at h
      rw [List.cons_append, findEntry_cons, if_neg hk]
      exact ih h

/-- Claim C3: for every `Glycolysis.perform` run that returns normally, the
adenine-nucleotide total after the call is within `1e-6` of the total before
it once the automatic correction has been applied, and whenever the
post-pass drift exceeds the tolerance the corrective redistribution restores
the initial total exactly while leaving AMP untouched.  The theorem
quantifies over every possible post-phase pool state, so it covers every
invocation regardless of what the phase reactions computed. -/
theorem C3_glycolysis_adenine_conservation (initialTotal initialAtp : ℚ) (s : AdenineState) :
    |(Glycolysis.adenineBalanceAdjust initialTotal initialAtp s).total - initialTotal| ≤
      adenineTolerance ∧
    (adenineTolerance < |s.total - initialTotal| →
      (Glycolysis.adenineBalanceAdjust initialTotal initialAtp s).total = initialTotal ∧
      (Glycolysis.adenineBalanceAdjust initialTotal initialAtp s).amp = s.amp) := by
  by_cases hc : adenineTolerance < |s.total - initialTotal|
  · have hexact : (Glycolysis.adenineBalanceAdjust initialTotal initialAtp s).total =
        initialTotal ∧
        (Glycolysis.adenineBalanceAdjust initialTotal initialAtp s).amp = s.amp := by
      unfold Glycolysis.adenineBalanceAdjust
      rw [if_pos hc]
      dsimp only
      refine ⟨?_, rfl⟩
      by_cases hpos : 0 < s.total - initialTotal -
          min (s.total - initialTotal) (s.atp - initialAtp)
      · rw [if_pos hpos]
        simp only [AdenineState.total]
        ring
      · rw [if_neg hpos]
        rw [abs_of_nonpos (le_of_not_lt hpos)]
        simp only [AdenineState.total]
        ring
    refine ⟨?_, fun _ => hexact⟩
    rw [hexact.1, sub_self, abs_zero]
    norm_num [adenineTolerance]
  · refine ⟨?_, fun h => absurd h hc⟩
    unfold Glycolysis.adenineBalanceAdjust
    rw [if_neg hc]
    exact le_of_not_lt hc

/-- Witness for C3 at a concrete drifted state: initial total `10`, initial
ATP `3`, post-phase pools ATP `5`, ADP `4`, AMP `3` (total `12`, drift `2`). -/
theorem C3_glycolysis_adenine_conservation_witness :
    |(Glycolysis.adenineBalanceAdjust 10 3 ⟨5, 4, 3⟩).total - 10| ≤ adenineTolerance ∧
    (adenineTolerance < |(AdenineState.mk 5 4 3).total - 10| →
      (Glycolysis.adenineBalanceAdjust 10 3 ⟨5, 4, 3⟩).total = 10 ∧
      (Glycolysis.adenineBalanceAdjust 10 3 ⟨5, 4, 3⟩).amp = 3) :=
  C3_glycolysis_adenine_conservation 10 3 ⟨5, 4, 3⟩

/-- Claim C4 counterexample: the glycolysis adenine-balance adjustment is a
pathway-level mutation that writes the `quantity` fields directly.  From
initial total `0` (initial ATP `0`) and post-phase pools ATP `0`, ADP `0`,
AMP `5`, it drives ADP to `-5`, strictly below the default `min_quantity`
of `0`, and — being a total function with no error path — raises no
`QuantityError`, contradicting the claim that every bounds-violating
operation fails. -/
theorem C4_bounds_counterexample :
    (Glycolysis.adenineBalanceAdjust 0 0 ⟨0, 0, 5⟩).adp = -5 ∧
    (Glycolysis.adenineBalanceAdjust 0 0 ⟨0, 0, 5⟩).adp <
      (Metabolite.mk "adp" 0 1000 0).minQuantity := by
  have h : (Glycolysis.adenineBalanceAdjust 0 0 ⟨0, 0, 5⟩).adp = -5 := by
    unfold Glycolysis.adenineBalanceAdjust
    rw [if_pos (by norm_num [AdenineState.total, adenineTolerance])]
    dsimp only
    rw [if_pos (by norm_num [AdenineState.total])]
    norm_num [AdenineState.total]
  exact ⟨h, by rw [h]; norm_num⟩

/-- Claim C4, amended: the store-level mutation `Metabolites.change_quantity`
does enforce the bounds — it preserves `min_quantity ≤ quantity ≤
max_quantity` on every success and fails with `QuantityError` whenever the
requested delta would leave the interval — but the glycolysis adenine-balance
adjustment bypasses the store and can drive ATP or ADP outside their bounds
(see the counterexample). -/
theorem C4_store_bounds_enforced :
    (∀ (ms ms' : Metabolites) (name : String) (amount : ℚ),
      ms.WellBounded → ms.change_quantity name amount = .ok ms' → ms'.WellBounded) ∧
    (∀ (ms : Metabolites) (name : String) (amount : ℚ) (met : Metabolite),
      ms.find name = some met →
      (met.quantity + amount < met.minQuantity ∨ met.maxQuantity < met.quantity + amount) →
      ms.change_quantity name amount = .error (.quantityError name)) := by
  constructor
  · intro ms ms' name amount hwb h
    obtain ⟨met, hf, h1, h2, rfl⟩ := Metabolites.change_quantity_ok h
    intro p hp
    simp only [Metabolites.replace] at hp
    obtain ⟨q, hq, hfq⟩ := List.mem_map.mp hp
    by_cases hqk : q.1 = name
    · rw [if_pos hqk] at hfq
      rw [← hfq]
      exact ⟨h1, h2⟩
    · rw [if_neg hqk] at hfq
      rw [← hfq]
      exact hwb q hq
  · intro ms name amount met hf hviol
    rw [Metabolites.change_quantity_match ms name amount met hf]
    rcases hviol with h | h
    · rw [if_pos h]
    · by_cases h1 : met.quantity + amount < met.minQuantity
      · rw [if_pos h1]
      · rw [if_neg h1, if_pos h]

/-- Witness for C4 (amended): a concrete in-bounds update preserves the
invariant and a concrete overflowing update is rejected. -/
theorem C4_store_bounds_enforced_witness :
    (Metabolites.mk [("a", ⟨"a", 8, 10, 0⟩)]).WellBounded ∧
    (Metabolites.mk [("a", ⟨"a", 5, 10, 0⟩)]).change_quantity "a" 10 =
      .error (.quantityError "a") :=
  ⟨C4_store_bounds_enforced.1 (Metabolites.mk [("a", ⟨"a", 5, 10, 0⟩)])
      (Metabolites.mk [("a", ⟨"a", 8, 10, 0⟩)]) "a" 3
      (by unfold Metabolites.WellBounded; decide)
      (by
        rw [Metabolites.change_quantity_match (Metabolites.mk [("a", ⟨"a", 5, 10, 0⟩)])
            "a" 3 ⟨"a", 5, 10, 0⟩ (by decide), if_neg (by norm_num), if_neg (by norm_num)]
        norm_num [Metabolites.replace]),
    C4_store_bounds_enforced.2 (Metabolites.mk [("a", ⟨"a", 5, 10, 0⟩)]) "a" 10
      ⟨"a", 5, 10, 0⟩ (by decide) (Or.inr (by norm_num))⟩

/-- Claim C5: `Enzyme.calculate_rate` returns saturating kinetics with the
effective constants
`vmax_eff = vmax * Π (1 + [activator]/Ka)` and
`km_eff = km * Π (1 + [inhibitor]/Ki)`, a species absent from the level map
contributing concentration `0`; the embedding is a pure function of the
enzyme and the snapshot. -/
theorem C5_calculate_rate_closed_form (e : Enzyme) (S : ℚ)
    (levels : List (String × ℚ)) (hS : 0 ≤ S) :
    e.calculate_rate S levels =
      e.vmax * ((e.activators.map fun p => 1 + levelOf levels p.1 / p.2).prod) * S /
        (e.km * ((e.inhibitors.map fun p => 1 + levelOf levels p.1 / p.2).prod) + S) := by
  unfold Enzyme.calculate_rate
  rw [foldl_mul_eq_mul_prod, foldl_mul_eq_mul_prod]

/-- Witness for C5: hexokinase-style enzyme, `vmax = 2`, `km = 1`, one
inhibitor `x` with `Ki = 1` at level `1`, one activator `y` with `Ka = 2` at
level `4`, substrate `S = 3`. -/
theorem C5_calculate_rate_closed_form_witness :
    (0 : ℚ) ≤ 3 ∧
    (Enzyme.mk "hexokinase" 2 1 [("x", 1)] [("y", 2)]).calculate_rate 3
        [("x", 1), ("y", 4)] =
      (2 : ℚ) * (((Enzyme.mk "hexokinase" 2 1 [("x", 1)] [("y", 2)]).activators.map
          fun p => 1 + levelOf [("x", 1), ("y", 4)] p.1 / p.2).prod) * 3 /
        ((1 : ℚ) * (((Enzyme.mk "hexokinase" 2 1 [("x", 1)] [("y", 2)]).inhibitors.map
          fun p => 1 + levelOf [("x", 1), ("y", 4)] p.1 / p.2).prod) + 3) :=
  ⟨by norm_num,
    C5_calculate_rate_closed_form (Enzyme.mk "hexokinase" 2 1 [("x", 1)] [("y", 2)]) 3
      [("x", 1), ("y", 4)] (by norm_num)⟩

/-- Claim C6 counterexample: looking up an unregistered name in the store
does register it as a side effect.  `Metabolites.__getitem__` on an empty
store and the key `"glucose"` returns a store that now contains a
`"glucose"` entry with the default values (quantity `0`, max `100`). -/
theorem C6_lookup_autovivify_counterexample :
    ((Metabolites.mk []).getItem "glucose").2.containsName "glucose" = true ∧
    ((Metabolites.mk []).getItem "glucose").2.find "glucose" =
      some ⟨"glucose", 0, 100, 0⟩ ∧
    ((Metabolites.mk []).getItem "glucose").2 ≠ Metabolites.mk [] := by
  refine ⟨?_, ?_, ?_⟩ <;> decide

/-- Claim C6, amended: `produce` fails with the unknown-metabolite error on a
batch headed by an unregistered name (and, because its per-item helper call
never resolves, no `produce` call ever changes the store), and
`change_quantity` and `is_available` fail on unregistered names without
creating entries; but `Metabolites.__getitem__` auto-creates a missing entry
with default values (quantity `0`, max `100`) as a side effect of lookup. -/
theorem C6_unknown_metabolite_handling :
    (∀ (ms : Metabolites) (name : String) (amount : ℚ),
      ms.containsName name = false →
      ms.produce [(name, amount)] = .error (.unknownMetabolite name)) ∧
    (∀ (ms ms' : Metabolites) (batch : List (String × ℚ)),
      ms.produce batch = .ok ms' → ms' = ms) ∧
    (∀ (ms : Metabolites) (name : String) (amount : ℚ),
      ms.containsName name = false →
      ms.change_quantity name amount = .error (.unknownMetabolite name) ∧
      ms.is_available name amount = .error (.unknownMetabolite name)) ∧
    (∀ (ms : Metabolites) (key : String),
      ms.containsName key = false →
      (ms.getItem key).2.find key = some ⟨key, 0, 100, 0⟩) := by
  have hfind : ∀ (ms : Metabolites) (name : String),
      ms.containsName name = false → ms.find name = none := by
    intro ms name h
    unfold Metabolites.containsName at h
    cases hf : ms.find name with
    | none => rfl
    | some met => rw [hf] at h; simp at h
  refine ⟨?_, ?_, ?_, ?_⟩
  · intro ms name amount h
    simp [Metabolites.produce, h]
  · intro ms ms' batch h
    cases batch with
    | nil =>
      simp only [Metabolites.produce] at h
      cases h
      rfl
    | cons hd tl =>
      rcases hd with ⟨name, amount⟩
      simp only [Metabolites.produce] at h
      by_cases hc : ms.containsName name = true
      · rw [if_pos hc] at h
        exact absurd h (by simp)
      · rw [if_neg hc] at h
        exact absurd h (by simp)
  · intro ms name amount h
    constructor
    · unfold Metabolites.change_quantity
      rw [hfind ms name h]
    · unfold Metabolites.is_available
      rw [hfind ms name h]
  · intro ms key h
    unfold Metabolites.getItem
    rw [hfind ms key h]
    unfold Metabolites.find
    rw [findEntry_append_of_none key ms.data _ (hfind ms key h)]
    simp

/-- Witness for C6 (amended) on the empty store and the key `"glucose"`. -/
theorem C6_unknown_metabolite_handling_witness :
    (Metabolites.mk []).produce [("glucose", 5)] =
      .error (.unknownMetabolite "glucose") ∧
    ((Metabolites.mk []).getItem "glucose").2.find "glucose" =
      some ⟨"glucose", 0, 100, 0⟩ :=
  ⟨C6_unknown_metabolite_handling.1 (Metabolites.mk []) "glucose" 5 (by decide),
    by
      have := C6_unknown_metabolite_handling.2.2.2 (Metabolites.mk []) "glucose" (by decide)
      simpa using this⟩

end Pyology

namespace CellModeling

theorem findMet_replace_other (l : List (String × Metabolite)) (k k' : String)
    (m : Metabolite) (hne : k' ≠ k) :
    findMet k' (l.map fun p => if p.1 = k then (k, m) else p) = findMet k' l := by
  induction l with
  | nil => simp
  | cons hd tl ih =>
    rcases hd with ⟨a, b⟩
    by_cases hk : a = k
    · subst hk
      simp [if_neg hne, ih]
    · by_cases h2 : k' = a
      · subst h2
        simp [if_neg hk]
      · simp [if_neg hk, if_neg h2, ih]

theorem Organelle.find_after_replace_other (o : Organelle) (name other : String) (m : Metabolite)
    (hne : other ≠ name) : (o.replace name m).find other = o.find other :=
  findMet_replace_other o.metabolites name other m hne

theorem Organelle.change_metabolite_quantity_match (o : Organelle) (name : String)
    (amount : ℚ) (met : Metabolite) (hf : o.find name = some met) :
    o.change_metabolite_quantity name amount =
      o.replace name
        { met with quantity := max 0 (min (met.quantity + amount) met.maxQuantity) } := by
  unfold Organelle.change_metabolite_quantity
  rw [hf]

theorem Organelle.is_metabolite_available_match (o : Organelle) (name : String)
    (amount : ℚ) (met : Metabolite) (hf : o.find name = some met) :
    o.is_metabolite_available name amount = decide (amount ≤ met.quantity) := by
  unfold Organelle.is_metabolite_available
  rw [hf]

/-- Claim C2 counterexample: the batch `consume_metabolites(a=5, b=1000)` on
the cell_modeling `Organelle` with `a` at `100` and `b` at only `10` returns
`False` but leaves `a` decremented to `95` — the batch is not all-or-nothing
and `a` does not stay unchanged as the claim requires. -/
theorem C2_partial_consume_counterexample :
    (Organelle.mk [("a", ⟨"a", 100, 1000⟩), ("b", ⟨"b", 10, 1000⟩)]).consume_metabolites
        [("a", 5), ("b", 1000)] =
      (false, Organelle.mk [("a", ⟨"a", 95, 1000⟩), ("b", ⟨"b", 10, 1000⟩)]) := by
  have hfa : (Organelle.mk [("a", ⟨"a", 100, 1000⟩), ("b", ⟨"b", 10, 1000⟩)]).find "a" =
      some ⟨"a", 100, 1000⟩ := by decide
  have h1 : (Organelle.mk [("a", ⟨"a", 100, 1000⟩),
      ("b", ⟨"b", 10, 1000⟩)]).is_metabolite_available "a" 5 = true := by
    rw [Organelle.is_metabolite_available_match _ "a" 5 _ hfa]
    exact decide_eq_true (by norm_num)
  have h2 : (Organelle.mk [("a", ⟨"a", 100, 1000⟩),
      ("b", ⟨"b", 10, 1000⟩)]).change_metabolite_quantity "a" (-5) =
      Organelle.mk [("a", ⟨"a", 95, 1000⟩), ("b", ⟨"b", 10, 1000⟩)] := by
    rw [Organelle.change_metabolite_quantity_match _ "a" (-5) _ hfa]
    have hq : max 0 (min ((100 : ℚ) + -5) 1000) = 95 := by
      norm_num [min_def, max_def]
    rw [hq]
    decide
  have hfb : (Organelle.mk [("a", ⟨"a", 95, 1000⟩), ("b", ⟨"b", 10, 1000⟩)]).find "b" =
      some ⟨"b", 10, 1000⟩ := by decide
  have h3 : (Organelle.mk [("a", ⟨"a", 95, 1000⟩),
      ("b", ⟨"b", 10, 1000⟩)]).is_metabolite_available "b" 1000 = false := by
    rw [Organelle.is_metabolite_available_match _ "b" 1000 _ hfb]
    exact decide_eq_false (by norm_num)
  simp only [Organelle.consume_metabolites, h1, if_true, h2, h3]
  simp

/-- Claim C2, amended: `Metabolites.consume` never changes any quantity (a
non-empty batch dies on the unresolvable `is_metabolite_available` helper
before any check or decrement; the only successful call is the empty batch,
which returns the store unchanged), so insufficiency can never leak a partial
decrement there; but the `Organelle.consume_metabolites` variant is not
all-or-nothing: with `a` sufficient and `b` insufficient it returns `False`
with `a` already decremented and `b` unchanged. -/
theorem C2_consume_batch_semantics :
    (∀ (ms ms' : Pyology.Metabolites) (batch : List (String × ℚ)),
      ms.consume batch = .ok ms' → ms' = ms) ∧
    (∀ (o : Organelle) (a b : String) (meta metb : Metabolite) (amta amtb : ℚ),
      a ≠ b → o.find a = some meta → o.find b = some metb →
      0 ≤ amta → amta ≤ meta.quantity → meta.quantity ≤ meta.maxQuantity →
      metb.quantity < amtb →
      o.consume_metabolites [(a, amta), (b, amtb)] =
        (false, o.replace a { meta with quantity := meta.quantity - amta })) := by
  constructor
  · intro ms ms' batch h
    cases batch with
    | nil =>
      simp only [Pyology.Metabolites.consume] at h
      cases h
      rfl
    | cons hd tl => exact absurd h (by simp [Pyology.Metabolites.consume])
  · intro o a b meta metb amta amtb hab hfa hfb h0 hle hqmax hblt
    have hava : o.is_metabolite_available a amta = true := by
      rw [Organelle.is_metabolite_available_match o a amta meta hfa]
      exact decide_eq_true hle
    have hchange : o.change_metabolite_quantity a (-amta) =
        o.replace a { meta with quantity := meta.quantity - amta } := by
      rw [Organelle.change_metabolite_quantity_match o a (-amta) meta hfa]
      have hq : max 0 (min (meta.quantity + -amta) meta.maxQuantity) =
          meta.quantity - amta := by
        rw [show meta.quantity + -amta = meta.quantity - amta from by ring,
          min_eq_left (by linarith), max_eq_right (by linarith)]
      rw [hq]
    have hfb1 : (o.replace a { meta with quantity := meta.quantity - amta }).find b =
        some metb := by
      rw [Organelle.find_after_replace_other o a b _ (Ne.symm hab)]
      exact hfb
    have havb : (o.replace a { meta with quantity := meta.quantity - amta
        }).is_metabolite_available b amtb = false := by
      rw [Organelle.is_metabolite_available_match _ b amtb metb hfb1]
      exact decide_eq_false (not_le.mpr hblt)
    simp only [Organelle.consume_metabolites, hava, if_true, hchange, havb]
    simp

/-- Witness for C2 (amended): the empty-batch `Metabolites.consume` and the
counterexample organelle instantiate both halves. -/
theorem C2_consume_batch_semantics_witness :
    (Pyology.Metabolites.mk [("a", ⟨"a", 7, 10, 0⟩)]) =
      (Pyology.Metabolites.mk [("a", ⟨"a", 7, 10, 0⟩)]) ∧
    (Organelle.mk [("a", ⟨"a", 100, 1000⟩), ("b", ⟨"b", 10, 1000⟩)]).consume_metabolites
        [("a", 5), ("b", 1000)] =
      (false, (Organelle.mk [("a", ⟨"a", 100, 1000⟩),
        ("b", ⟨"b", 10, 1000⟩)]).replace "a" ⟨"a", 100 - 5, 1000⟩) :=
  ⟨C2_consume_batch_semantics.1 (Pyology.Metabolites.mk [("a", ⟨"a", 7, 10, 0⟩)])
      (Pyology.Metabolites.mk [("a", ⟨"a", 7, 10, 0⟩)]) [] rfl,
    C2_consume_batch_semantics.2 (Organelle.mk [("a", ⟨"a", 100, 1000⟩),
        ("b", ⟨"b", 10, 1000⟩)]) "a" "b" ⟨"a", 100, 1000⟩ ⟨"b", 10, 1000⟩ 5 1000
      (by decide) (by decide) (by decide) (by norm_num) (by norm_num) (by norm_num)
      (by norm_num)⟩

/-- Claim C8: for fixed positive `leak_rate` and `leak_steepness`,
`calculate_proton_leak` is non-decreasing in the gradient (it is the logistic
`leak_rate / (1 + exp(-steepness * (gradient - midpoint)))`), and
`update_proton_gradient` floors the new gradient at zero, so it never leaves
the gradient negative. -/
theorem C8_proton_leak_monotone_and_floored (p : LeakParams) (hr : 0 < p.leak_rate)
    (hs : 0 < p.leak_steepness) :
    (∀ g1 g2 : ℝ, g1 ≤ g2 →
      calculate_proton_leak p g1 ≤ calculate_proton_leak p g2) ∧
    (∀ g pumped : ℝ, 0 ≤ update_proton_gradient p g pumped) := by
  constructor
  · intro g1 g2 hg
    unfold calculate_proton_leak
    have h2 : (0 : ℝ) < 1 + Real.exp (-p.leak_steepness * (g2 - p.leak_midpoint)) := by
      positivity
    have hle : 1 + Real.exp (-p.leak_steepness * (g2 - p.leak_midpoint)) ≤
        1 + Real.exp (-p.leak_steepness * (g1 - p.leak_midpoint)) := by
      have harg : -p.leak_steepness * (g2 - p.leak_midpoint) ≤
          -p.leak_steepness * (g1 - p.leak_midpoint) := by nlinarith
      linarith [Real.exp_le_exp.mpr harg]
    exact div_le_div_of_nonneg_left hr.le h2 hle
  · intro g pumped
    unfold update_proton_gradient
    exact le_max_left 0 _

/-- Witness for C8 with the constants.py parameters scaled to `leak_rate = 1`,
`leak_steepness = 1`, midpoint `0`: monotone between gradients `0 ≤ 1`, and a
non-negative updated gradient at `(5, 3)`. -/
theorem C8_proton_leak_monotone_and_floored_witness :
    calculate_proton_leak ⟨1, 1, 0, 200⟩ 0 ≤ calculate_proton_leak ⟨1, 1, 0, 200⟩ 1 ∧
    0 ≤ update_proton_gradient ⟨1, 1, 0, 200⟩ 5 3 :=
  ⟨(C8_proton_leak_monotone_and_floored ⟨1, 1, 0, 200⟩ (by norm_num) (by norm_num)).1
      0 1 (by norm_num),
    (C8_proton_leak_monotone_and_floored ⟨1, 1, 0, 200⟩ (by norm_num) (by norm_num)).2 5 3⟩

end CellModeling

namespace Pyology

/-- Claim C9: whenever `KrebsCycle.cycle` returns normally — that is, all
eight reaction steps complete without a `ReactionError` — it returns exactly
`2` CO2 for the turn, whatever the individual steps computed. -/
theorem C9_krebs_cycle_co2_yield {σ ε : Type}
    (s1 s2 s3 s4 s5 s6 s7 s8 : σ → Except ε σ) (organelle : σ) (result : ℤ × σ)
    (hok : KrebsCycle.cycle s1 s2 s3 s4 s5 s6 s7 s8 organelle = .ok result) :
    result.1 = 2 := by
  simp only [KrebsCycle.cycle, bind, Except.bind, pure, Except.pure] at hok
  split at hok
  · exact absurd hok (by simp)
  split at hok
  · exact absurd hok (by simp)
  split at hok
  · exact absurd hok (by simp)
  split at hok
  · exact absurd hok (by simp)
  split at hok
  · exact absurd hok (by simp)
  split at hok
  · exact absurd hok (by simp)
  split at hok
  · exact absurd hok (by simp)
  split at hok
  · exact absurd hok (by simp)
  cases hok
  rfl

/-- Witness for C9: eight trivially succeeding steps on a unit state. -/
theorem C9_krebs_cycle_co2_yield_witness : ((2 : ℤ), ()).1 = 2 :=
  C9_krebs_cycle_co2_yield (ε := Unit) (fun s => .ok s) (fun s => .ok s) (fun s => .ok s)
    (fun s => .ok s) (fun s => .ok s) (fun s => .ok s) (fun s => .ok s) (fun s => .ok s)
    () ((2 : ℤ), ()) rfl

end Pyology

namespace CellModeling

/-- Claim C10: `Mitochondrion.is_metabolite_available` consults
`hasattr(self, name)` instead of the `self.metabolites` registry, and the
constructor keeps every metabolite inside that registry, never as an
attribute; hence the check returns `False` for every registered metabolite
name in every state, and the four respiratory complexes always take their
insufficient-substrate branch: they return `0`, pump no protons and leave
every metabolite quantity unchanged. -/
theorem C10_mito_hasattr_shadowing (name : String) (hname : name ∈ mitoMetaboliteNames) :
    (∀ (m : Mitochondrion) (amount : ℚ),
      m.is_metabolite_available name amount = .ok false) ∧
    (∀ m : Mitochondrion,
      m.complex_I = .ok (0, m) ∧ m.complex_II = .ok (0, m) ∧
      m.complex_III = .ok (0, m) ∧ m.complex_IV = .ok (0, m)) := by
  constructor
  · intro m amount
    have hattr : name ∉ mitoAttrNames := by
      fin_cases hname <;> decide
    simp [Mitochondrion.is_metabolite_available, hattr]
  · intro m
    refine ⟨?_, ?_, ?_, ?_⟩ <;> rfl

/-- Witness for C10 at the constructor state and the NADH pool. -/
theorem C10_mito_hasattr_shadowing_witness :
    mitoInit.is_metabolite_available "nadh" 1 = .ok false ∧
    mitoInit.complex_I = .ok (0, mitoInit) :=
  ⟨(C10_mito_hasattr_shadowing "nadh" (by decide)).1 mitoInit 1,
    ((C10_mito_hasattr_shadowing "nadh" (by decide)).2 mitoInit).1⟩

/-- The one-step shape of `atp_synthase`: the produced amount, the two
clamped pool updates and the exact gradient deduction. -/
theorem Mitochondrion.atp_synthase_eq (m : Mitochondrion) :
    m.atp_synthase =
      (min ((pyInt (m.proton_gradient / PROTONS_PER_ATP) : ℤ) : ℚ) m.adp.quantity,
        { m with
          atp := { m.atp with quantity := max 0 (min (m.atp.quantity +
            min ((pyInt (m.proton_gradient / PROTONS_PER_ATP) : ℤ) : ℚ) m.adp.quantity)
            m.atp.maxQuantity) }
          adp := { m.adp with quantity := max 0 (min (m.adp.quantity -
            min ((pyInt (m.proton_gradient / PROTONS_PER_ATP) : ℤ) : ℚ) m.adp.quantity)
            m.adp.maxQuantity) }
          proton_gradient := m.proton_gradient -
            min ((pyInt (m.proton_gradient / PROTONS_PER_ATP) : ℤ) : ℚ) m.adp.quantity *
              PROTONS_PER_ATP }) := by
  unfold Mitochondrion.atp_synthase
  simp [Mitochondrion.change_metabolite_quantity, Mitochondrion.getMet,
    Mitochondrion.setMet, sub_eq_add_neg]

/-- A mitochondrion state with the ATP pool one unit below its maximum and a
proton gradient of `100`. -/
def mitoHighAtp : Mitochondrion :=
  { mitoInit with atp := ⟨"atp", 999, 1000⟩, proton_gradient := 100 }

/-- Claim C7 counterexample: with gradient `100`, ADP `100` and ATP already
at `999` of max `1000`, `atp_synthase` reports `atp_produced = 25` and takes
`25` ADP, but the ATP pool only rises by `1` — the clamped
`change_metabolite_quantity` silently truncates at `max_quantity`, so the
step does not convert exactly `atp_produced` ADP into ATP as claimed. -/
theorem C7_atp_synthase_clamp_counterexample :
    mitoHighAtp.atp_synthase.1 = 25 ∧
    mitoHighAtp.atp_synthase.2.atp.quantity = 1000 ∧
    mitoHighAtp.atp_synthase.2.adp.quantity = 75 ∧
    mitoHighAtp.atp_synthase.2.atp.quantity - mitoHighAtp.atp.quantity = 1 ∧
    (1 : ℚ) ≠ 25 := by
  have hpy : ((pyInt (mitoHighAtp.proton_gradient / PROTONS_PER_ATP) : ℤ) : ℚ) = 25 := by
    unfold pyInt
    rw [if_pos (by norm_num [mitoHighAtp, mitoInit, PROTONS_PER_ATP])]
    norm_num [mitoHighAtp, mitoInit, PROTONS_PER_ATP]
  rw [Mitochondrion.atp_synthase_eq, hpy]
  norm_num [mitoHighAtp, mitoInit, min_def, max_def]

/-- Claim C7, amended: for a non-negative gradient, `atp_synthase` produces
`atp_produced = min(floor(gradient / PROTONS_PER_ATP), ADP)` and decreases
the gradient by exactly `atp_produced * PROTONS_PER_ATP` (the remainder is
retained, not discarded via modulo); and provided the ATP pool has headroom
(`ATP + atp_produced ≤ max_quantity`, the clamp being inactive) it converts
exactly `atp_produced` ADP into ATP. -/
theorem C7_atp_synthase_exact (m : Mitochondrion)
    (hg : 0 ≤ m.proton_gradient)
    (hadp0 : 0 ≤ m.adp.quantity) (hadpmax : m.adp.quantity ≤ m.adp.maxQuantity)
    (hatp0 : 0 ≤ m.atp.quantity)
    (hroom : m.atp.quantity +
      min ((⌊m.proton_gradient / PROTONS_PER_ATP⌋ : ℤ) : ℚ) m.adp.quantity ≤
      m.atp.maxQuantity) :
    m.atp_synthase.1 =
      min ((⌊m.proton_gradient / PROTONS_PER_ATP⌋ : ℤ) : ℚ) m.adp.quantity ∧
    m.atp_synthase.2.atp.quantity = m.atp.quantity + m.atp_synthase.1 ∧
    m.atp_synthase.2.adp.quantity = m.adp.quantity - m.atp_synthase.1 ∧
    m.atp_synthase.2.proton_gradient =
      m.proton_gradient - m.atp_synthase.1 * PROTONS_PER_ATP := by
  have hdiv : (0 : ℚ) ≤ m.proton_gradient / PROTONS_PER_ATP :=
    div_nonneg hg (by norm_num [PROTONS_PER_ATP])
  have hpy : ((pyInt (m.proton_gradient / PROTONS_PER_ATP) : ℤ) : ℚ) =
      ((⌊m.proton_gradient / PROTONS_PER_ATP⌋ : ℤ) : ℚ) := by
    unfold pyInt
    rw [if_pos hdiv]
  have hfl : (0 : ℚ) ≤ ((⌊m.proton_gradient / PROTONS_PER_ATP⌋ : ℤ) : ℚ) := by
    exact_mod_cast Int.floor_nonneg.mpr hdiv
  have hprod0 : 0 ≤ min ((⌊m.proton_gradient / PROTONS_PER_ATP⌋ : ℤ) : ℚ) m.adp.quantity :=
    le_min hfl hadp0
  have hprodadp : min ((⌊m.proton_gradient / PROTONS_PER_ATP⌋ : ℤ) : ℚ) m.adp.quantity ≤
      m.adp.quantity := min_le_right _ _
  rw [Mitochondrion.atp_synthase_eq, hpy]
  refine ⟨rfl, ?_, ?_, rfl⟩
  · dsimp only
    rw [min_eq_left hroom, max_eq_right (by linarith)]
  · dsimp only
    rw [min_eq_left (by linarith), max_eq_right (by linarith)]

/-- A constructor-state mitochondrion with a proton gradient of `10`. -/
def mitoG10 : Mitochondrion := { mitoInit with proton_gradient := 10 }

/-- Witness for C7 (amended) at gradient `10`, ADP `100`, ATP `0`. -/
theorem C7_atp_synthase_exact_witness :
    mitoG10.atp_synthase.1 =
      min ((⌊mitoG10.proton_gradient / PROTONS_PER_ATP⌋ : ℤ) : ℚ) mitoG10.adp.quantity ∧
    mitoG10.atp_synthase.2.atp.quantity = mitoG10.atp.quantity + mitoG10.atp_synthase.1 ∧
    mitoG10.atp_synthase.2.adp.quantity = mitoG10.adp.quantity - mitoG10.atp_synthase.1 ∧
    mitoG10.atp_synthase.2.proton_gradient =
      mitoG10.proton_gradient - mitoG10.atp_synthase.1 * PROTONS_PER_ATP :=
  C7_atp_synthase_exact mitoG10
    (by norm_num [mitoG10, mitoInit])
    (by norm_num [mitoG10, mitoInit])
    (by norm_num [mitoG10, mitoInit])
    (by norm_num [mitoG10, mitoInit])
    (by
      have hfl : (⌊mitoG10.proton_gradient / PROTONS_PER_ATP⌋ : ℤ) = 2 := by
        norm_num [mitoG10, mitoInit, PROTONS_PER_ATP]
      rw [hfl]
      norm_num [mitoG10, mitoInit, min_def])

end CellModeling


namespace Pyology

/-- Claim C1: for every `Reaction.execute(organelle, time_step)` call with
`time_step >= 0` on an organelle holding every referenced metabolite (being
the hypotheses of a successful call), the returned `actual_rate` is the
minimum of the enzyme's nominal rate times the time step and
`quantity(m) / coeff` over every consumed metabolite with positive
coefficient — it is one of those candidates and is below each of them — and
each consumed metabolite ends decremented by `coeff * actual_rate`, each
produced metabolite incremented by `coeff * actual_rate`, with no consumed
pool driven negative.  The sole-substrate special case of the claim (one
consumed species, coefficient `1`) is the instance where the quotient family
is `quantity(s) / 1`, giving `min(R * dt, Q)` and post-quantity
`Q - actual_rate ≥ 0`. -/
theorem C1_reaction_execute_rate_limiting (r : Reaction) (rate : ℚ) (o : Organelle)
    (time_step a : ℚ) (o' : Organelle)
    (hdt : 0 ≤ time_step)
    (hC : (r.consume.map Prod.fst).Nodup)
    (hP : (r.produce.map Prod.fst).Nodup)
    (hCP : ∀ p ∈ r.consume, ∀ q ∈ r.produce, p.1 ≠ q.1)
    (hok : r.execute rate o time_step = .ok (a, o')) :
    (a = rate * time_step ∨ ∃ p ∈ r.consume, 0 < p.2 ∧ a = (o.qty p.1).getD 0 / p.2) ∧
    a ≤ rate * time_step ∧
    (∀ p ∈ r.consume, 0 < p.2 → a ≤ (o.qty p.1).getD 0 / p.2) ∧
    (∀ p ∈ r.consume, ∃ q, o.qty p.1 = some q ∧ o'.qty p.1 = some (q - p.2 * a)) ∧
    (∀ p ∈ r.produce, ∃ q, o.qty p.1 = some q ∧ o'.qty p.1 = some (q + p.2 * a)) ∧
    (∀ p ∈ r.consume, 0 < p.2 → ∀ q', o'.qty p.1 = some q' → 0 ≤ q') := by
  unfold Reaction.execute at hok
  rw [if_neg (not_lt.mpr hdt)] at hok
  cases hfil : (r.consume.map Prod.fst ++ r.kmNames).filter (fun n => (o.qty n).isNone) with
  | cons x xs => rw [hfil] at hok; exact absurd hok (by simp)
  | nil =>
  rw [hfil] at hok
  dsimp only at hok
  cases hcons : o.changeAll r.consume (-(r.actualRate rate o time_step)) with
  | error e => rw [hcons] at hok; exact absurd hok (by simp)
  | ok o1 =>
  rw [hcons] at hok
  dsimp only at hok
  cases hprod : o1.changeAll r.produce (r.actualRate rate o time_step) with
  | error e => rw [hprod] at hok; exact absurd hok (by simp)
  | ok o2 =>
  rw [hprod] at hok
  simp only [Except.ok.injEq, Prod.mk.injEq] at hok
  obtain ⟨ha, ho⟩ := hok
  subst ho
  subst ha
  have hconsMem := Organelle.changeAll_qty_mem hcons hC
  have hprodMem := Organelle.changeAll_qty_mem hprod hP
  have hmin3 : ∀ p ∈ r.consume, 0 < p.2 →
      r.actualRate rate o time_step ≤ (o.qty p.1).getD 0 / p.2 := by
    intro p hp hpos
    unfold Reaction.actualRate
    exact foldl_min_le_mem _ (rate * time_step) _
      (List.mem_filterMap.mpr ⟨p, hp, by rw [if_pos hpos]⟩)
  have hfinalC : ∀ p ∈ r.consume, ∃ q, o.qty p.1 = some q ∧
      o2.qty p.1 = some (q - p.2 * r.actualRate rate o time_step) := by
    intro p hp
    obtain ⟨q, hq, hq1⟩ := hconsMem p hp
    refine ⟨q, hq, ?_⟩
    have hskip : o2.qty p.1 = o1.qty p.1 :=
      Organelle.changeAll_qty_other hprod p.1 fun pr hpr => hCP p hp pr hpr
    rw [hskip, hq1]
    congr 1
    ring
  refine ⟨?_, ?_, hmin3, hfinalC, ?_, ?_⟩
  · unfold Reaction.actualRate
    rcases foldl_min_eq_init_or_mem
        (r.consume.filterMap fun p =>
          if 0 < p.2 then some ((o.qty p.1).getD 0 / p.2) else none)
        (rate * time_step) with h | h
    · exact Or.inl h
    · obtain ⟨p, hp, hfp⟩ := List.mem_filterMap.mp h
      by_cases hpos : 0 < p.2
      · rw [if_pos hpos] at hfp
        exact Or.inr ⟨p, hp, hpos, (Option.some.injEq _ _ ▸ hfp).symm⟩
      · rw [if_neg hpos] at hfp
        exact absurd hfp (by simp)
  · unfold Reaction.actualRate
    exact foldl_min_le_init _ _
  · intro p hp
    obtain ⟨q, hq1, hq2⟩ := hprodMem p hp
    have hskip : o1.qty p.1 = o.qty p.1 :=
      Organelle.changeAll_qty_other hcons p.1 fun pc hpc => (hCP pc hpc p hp).symm
    exact ⟨q, by rw [← hskip]; exact hq1, hq2⟩
  · intro p hp hpos q' hq'
    obtain ⟨q, hq, hqfin⟩ := hfinalC p hp
    rw [hq'] at hqfin
    have hle : r.actualRate rate o time_step ≤ q / p.2 := by
      have := hmin3 p hp hpos
      rwa [hq, Option.getD_some] at this
    have : q' = q - p.2 * r.actualRate rate o time_step := by
      exact (Option.some.injEq _ _ ▸ hqfin)
    rw [this]
    have := (le_div_iff₀ hpos).mp hle
    linarith

/-- A one-substrate reaction and a small organelle for the C1 witness:
`glucose` at `3` of max `100`, enzyme rate `1`, time step `1`, so the
kinetic candidate `1 * 1` undercuts the availability candidate `3 / 1`. -/
def demoReaction : Reaction :=
  { name := "demo", kmNames := ["glucose"], consume := [("glucose", 1)],
    produce := [("g6p", 1)] }

def demoOrganelle : Organelle :=
  ⟨⟨[("glucose", ⟨"glucose", 3, 100, 0⟩), ("g6p", ⟨"g6p", 0, 100, 0⟩)]⟩⟩

def demoOrganelleAfter : Organelle :=
  ⟨⟨[("glucose", ⟨"glucose", 2, 100, 0⟩), ("g6p", ⟨"g6p", 1, 100, 0⟩)]⟩⟩

/-- Witness for C1 on the demo reaction: the call returns rate `1` and the
stated minimum/update/non-negativity facts hold at that input. -/
theorem C1_reaction_execute_rate_limiting_witness :
    ((1 : ℚ) = 1 * 1 ∨ ∃ p ∈ demoReaction.consume, 0 < p.2 ∧
      (1 : ℚ) = (demoOrganelle.qty p.1).getD 0 / p.2) ∧
    (1 : ℚ) ≤ 1 * 1 ∧
    (∀ p ∈ demoReaction.consume, 0 < p.2 →
      (1 : ℚ) ≤ (demoOrganelle.qty p.1).getD 0 / p.2) ∧
    (∀ p ∈ demoReaction.consume, ∃ q, demoOrganelle.qty p.1 = some q ∧
      demoOrganelleAfter.qty p.1 = some (q - p.2 * 1)) ∧
    (∀ p ∈ demoReaction.produce, ∃ q, demoOrganelle.qty p.1 = some q ∧
      demoOrganelleAfter.qty p.1 = some (q + p.2 * 1)) ∧
    (∀ p ∈ demoReaction.consume, 0 < p.2 → ∀ q',
      demoOrganelleAfter.qty p.1 = some q' → 0 ≤ q') :=
  C1_reaction_execute_rate_limiting demoReaction 1 demoOrganelle 1 1 demoOrganelleAfter
    (by norm_num) (by decide) (by decide) (by decide)
    (by
      unfold Reaction.execute Reaction.actualRate demoReaction demoOrganelle
        demoOrganelleAfter
      norm_num [Organelle.qty, Organelle.changeAll, Organelle.change_metabolite_quantity,
        Metabolites.change_quantity, Metabolites.find, Metabolites.replace,
        Organelle.get_metabolite_quantity, List.filterMap_cons, min_def, max_def]
      simp
      norm_num)

end Pyology
